import Mathlib

/-!
Verification of the real-time delivery subsystem of the sportz-websockets
repository (`src/ws/server.js` and its caller `src/index.js`).

The source file contains two iterations of `attachWebSocketServer`:
the first (v1) runs the Arcjet admission check inside the `connection`
handler and closes the socket with WebSocket close codes 1013/1008/1011;
the second (v2) intercepts the HTTP `upgrade` event, rejecting with
HTTP statuses 400/404/429/403/500 before `handleUpgrade` runs.

The subscribe/unsubscribe message router, the topic subscription table and
`broadcastCommentary` are referenced by the caller (`index.js` destructures
`broadcastCommentary` from `attachWebSocketServer`) but their implementation
is not present under `src/`; those operations are modelled from the spec,
as marked in their doc comments.
-/

namespace Sportz

/-- readyState constants of the `ws` library (`WebSocket.CONNECTING` etc.). -/
def WebSocketCONNECTING : Nat := 0

/-- `WebSocket.OPEN` readyState constant of the `ws` library. -/
def WebSocketOPEN : Nat := 1

/-- `WebSocket.CLOSING` readyState constant of the `ws` library. -/
def WebSocketCLOSING : Nat := 2

/-- `WebSocket.CLOSED` readyState constant of the `ws` library. -/
def WebSocketCLOSED : Nat := 3

/-- One WebSocket connection as the server sees it: an opaque per-process
handle (`id`), the transport readyState, and the `isAlive` liveness flag the
heartbeat code attaches to the socket. -/
structure Conn where
  id : Nat
  readyState : Nat
  isAlive : Bool
deriving DecidableEq, Repr

/-- A commentary entry as carried in a commentary event: its owning match id
(used to select the topic) plus the remaining serialized fields, which the
broadcast layer forwards verbatim. -/
structure Commentary where
  matchId : Int
  fields : String
deriving DecidableEq, Repr

/-- The outbound frame shapes produced by `ws/server.js` (and, for
`subscribed`/`commentary`, by the subscription-aware version modelled from
the spec). -/
inductive Frame where
  | welcome : Frame
  | subscribed (matchId : Int) : Frame
  | errorMsg (message : String) : Frame
  | matchCreated (data : String) : Frame
  | commentary (c : Commentary) : Frame
deriving DecidableEq, Repr

/-- `JSON.stringify` restricted to the frame shapes above, producing the
exact JSON text the JavaScript code sends (match/commentary payload fields
are kept as their already-serialized text). -/
def jsonStringify : Frame → String
  | Frame.welcome => "\x7b\"type\":\"welcome\"\x7d"
  | Frame.subscribed matchId =>
      "\x7b\"type\":\"subscribed\",\"matchId\":" ++ toString matchId ++ "\x7d"
  | Frame.errorMsg message =>
      "\x7b\"type\":\"error\",\"message\":\"" ++ message ++ "\"\x7d"
  | Frame.matchCreated data =>
      "\x7b\"type\":\"match_created\",\"data\":" ++ data ++ "\x7d"
  | Frame.commentary c =>
      "\x7b\"type\":\"commentary\",\"data\":\x7b\"matchId\":" ++ toString c.matchId
        ++ "," ++ c.fields ++ "\x7d\x7d"

/-- `sendJson(socket, payload)`: returns the write performed, as a
(socket id, serialized text) pair; if the socket is not open, nothing is
sent (`if (socket.readyState !== WebSocket.OPEN) return;`). -/
def sendJson (socket : Conn) (payload : Frame) : List (Nat × String) :=
  if socket.readyState ≠ WebSocketOPEN then []
  else [(socket.id, jsonStringify payload)]

/-- Trace of one broadcast call: the writes performed, in iteration order,
and how many times `JSON.stringify` ran. -/
structure BroadcastTrace where
  deliveries : List (Nat × String)
  serializations : Nat
deriving DecidableEq, Repr

/-- One iteration of the loop body of `broadcast`: skip clients that are not
open (`continue`), otherwise `client.send(JSON.stringify(payload))`. -/
def broadcastStep (payload : Frame) (acc : BroadcastTrace) (client : Conn) : BroadcastTrace :=
  if client.readyState ≠ WebSocketOPEN then acc
  else ⟨acc.deliveries ++ [(client.id, jsonStringify payload)], acc.serializations + 1⟩

/-- `broadcast(wss, payload)`: `for (const client of wss.clients)`, skipping
clients that are not open and sending `JSON.stringify(payload)` to the rest.
Note the stringify call sits inside the loop body. -/
def broadcast (clients : List Conn) (payload : Frame) : BroadcastTrace :=
  clients.foldl (broadcastStep payload) ⟨[], 0⟩

/-- `broadcastMatchCreated(match)`: broadcasts
`{ type: "match_created", data: match }` to all connected clients. -/
def broadcastMatchCreated (clients : List Conn) (matchData : String) : BroadcastTrace :=
  broadcast clients (Frame.matchCreated matchData)

/-- The heartbeat interval in milliseconds (`setInterval(..., 30000)`). -/
def heartbeatIntervalMs : Nat := 30000

/-- Result of one firing of the heartbeat interval: the clients that remain
(with their liveness flag cleared), the ids terminated, and the ids pinged. -/
structure TickResult where
  survivors : List Conn
  terminated : List Nat
  pinged : List Nat
deriving DecidableEq, Repr

/-- One firing of the heartbeat interval: for each client,
`if (!ws.isAlive) return ws.terminate(); ws.isAlive = false; ws.ping();`. -/
def heartbeatTick (clients : List Conn) : TickResult :=
  clients.foldr
    (fun ws acc =>
      if ws.isAlive = false then
        ⟨acc.survivors, ws.id :: acc.terminated, acc.pinged⟩
      else
        ⟨{ ws with isAlive := false } :: acc.survivors, acc.terminated, ws.id :: acc.pinged⟩)
    ⟨[], [], []⟩

/-- The pong handler installed on each connection: `socket.isAlive = true`. -/
def onPong (socket : Conn) : Conn :=
  { socket with isAlive := true }

/-- The Arcjet decision object as consumed by the server:
`decision.isDenied()` and `decision.reason.isRateLimit()`. -/
structure ArcjetDecision where
  isDenied : Bool
  isRateLimit : Bool
deriving DecidableEq, Repr

/-- Everything the `upgrade` handler may do to the raw socket and request. -/
structure UpgradeOutcome where
  httpResponse : Option String
  socketDestroyed : Bool
  policyInvoked : Bool
  upgraded : Bool
deriving DecidableEq, Repr

/-- The v2 `server.on("upgrade")` handler. `pathnameOpt` is the result of
`new URL(req.url, ...)`: `none` when the constructor throws. `wsArcjetOn`
says whether `wsArcjet` is configured; `protect` is the outcome of
`wsArcjet.protect(req)` (`Except.error` when the policy backend throws). -/
def onUpgrade (pathnameOpt : Option String) (wsArcjetOn : Bool)
    (protect : Except Unit ArcjetDecision) : UpgradeOutcome :=
  match pathnameOpt with
  | none => ⟨some "HTTP/1.1 400 Bad Request", true, false, false⟩
  | some pathname =>
    if pathname ≠ "/ws" then
      ⟨some "HTTP/1.1 404 Not Found", true, false, false⟩
    else if wsArcjetOn then
      match protect with
      | Except.error _ =>
          ⟨some "HTTP/1.1 500 Internal Server Error", true, true, false⟩
      | Except.ok decision =>
          if decision.isDenied then
            if decision.isRateLimit then
              ⟨some "HTTP/1.1 429 Too Many Requests", true, true, false⟩
            else
              ⟨some "HTTP/1.1 403 Forbidden", true, true, false⟩
          else ⟨none, false, true, true⟩
    else ⟨none, false, false, true⟩

/-- The connection record built by a run of the `wss.on("connection")`
handler: the socket state afterwards, which handlers got attached, the
`socket.close(code, reason)` call if any, and the writes performed. -/
structure ConnRecord where
  socket : Conn
  pongAttached : Bool
  errorAttached : Bool
  closedWith : Option (Nat × String)
  sent : List (Nat × String)
deriving DecidableEq, Repr

/-- The v2 `wss.on("connection")` handler: mark the socket alive, install the
pong handler, send the welcome frame, install the error handler. -/
def connectionHandler (socket0 : Conn) : ConnRecord :=
  let socket1 := { socket0 with isAlive := true }
  { socket := socket1
    pongAttached := true
    errorAttached := true
    closedWith := none
    sent := sendJson socket1 Frame.welcome }

/-- The v1 `wss.on("connection")` handler, where the Arcjet check runs inside
the handler: on denial `socket.close(1013/1008, reason)`, on a policy throw
`socket.close(1011, "Server security error")` — and in every case execution
continues (there is no `return` after `socket.close`): the socket is marked
alive, the pong handler installed, the welcome frame attempted, the error
handler installed. `close` moves the readyState to CLOSING. -/
def v1ConnectionHandler (wsArcjetOn : Bool) (protect : Except Unit ArcjetDecision)
    (socket0 : Conn) : ConnRecord :=
  let step1 : Conn × Option (Nat × String) :=
    if wsArcjetOn then
      match protect with
      | Except.ok decision =>
        if decision.isDenied then
          let code := if decision.isRateLimit then 1013 else 1008
          let reason := if decision.isRateLimit then "Rate limit exceeded" else "Access denied"
          ({ socket0 with readyState := WebSocketCLOSING }, some (code, reason))
        else (socket0, none)
      | Except.error _ =>
          ({ socket0 with readyState := WebSocketCLOSING }, some (1011, "Server security error"))
    else (socket0, none)
  let socket1 := { step1.1 with isAlive := true }
  { socket := socket1
    pongAttached := true
    errorAttached := true
    closedWith := step1.2
    sent := sendJson socket1 Frame.welcome }

/-- Modelled from the spec: the Topic Subscription Table — a mapping from
topic identifier (an integer match id) to the set of subscribed connection
ids. The subscription-aware version of `ws/server.js` is not under `src/`
(its caller `index.js` destructures `broadcastCommentary`, but the
implementation is absent), so the table and its operations follow §4.3 of
the spec. -/
abbrev SubTable : Type := List (Int × List Nat)

/-- Modelled from the spec: `subscribersOf(topicId)` — read-only snapshot of
the topic's subscriber set; returns the empty set if the topic is unknown. -/
def subscribersOf (table : SubTable) (topicId : Int) : List Nat :=
  match table.find? (fun e => e.1 = topicId) with
  | some e => e.2
  | none => []

/-- Modelled from the spec: `subscribe(topicId, connection)` — adds the
connection to the topic's set (creating the set if absent); re-subscribing
an already-subscribed connection is a no-op (set semantics). -/
def subscribe (table : SubTable) (topicId : Int) (connId : Nat) : SubTable :=
  if (table.find? (fun e => e.1 = topicId)).isSome then
    table.map (fun e =>
      if e.1 = topicId then
        (e.1, if connId ∈ e.2 then e.2 else e.2 ++ [connId])
      else e)
  else
    table ++ [(topicId, [connId])]

/-- Modelled from the spec: `unsubscribe(topicId, connection)` — removes the
connection from the topic's set; if the set becomes empty the topic entry is
removed entirely; unsubscribing a non-subscribed connection is a no-op. -/
def unsubscribe (table : SubTable) (topicId : Int) (connId : Nat) : SubTable :=
  (table.map (fun e =>
    if e.1 = topicId then (e.1, e.2.filter (fun i => i ≠ connId)) else e)).filter
    (fun e => ¬ e.2.isEmpty)

/-- Modelled from the spec: `broadcastTopic(topicId, event)` — serializes the
event once and writes it to every connection returned by
`subscribersOf(topicId)` that is currently open; if the topic has no
subscribers, this is a silent no-op. -/
def broadcastTopic (clients : List Conn) (table : SubTable) (topicId : Int)
    (payload : Frame) : BroadcastTrace :=
  let subs := subscribersOf table topicId
  if subs = [] then ⟨[], 0⟩
  else
    let text := jsonStringify payload
    ⟨(clients.filter (fun c => decide (c.id ∈ subs ∧ c.readyState = WebSocketOPEN))).map
        (fun c => (c.id, text)),
      1⟩

/-- Modelled from the spec: `broadcastCommentary` — emits the
`{"type":"commentary","data": <commentary object>}` frame to the subscribers
of `data.matchId`'s topic. -/
def broadcastCommentary (clients : List Conn) (table : SubTable) (c : Commentary) :
    BroadcastTrace :=
  broadcastTopic clients table c.matchId (Frame.commentary c)

/-- A decoded inbound frame: its `type` tag and, when present and integral,
its `matchId` field. `none` at the router's input stands for a frame that
failed to decode as JSON. -/
structure InboundMsg where
  tag : String
  matchId : Option Int
deriving DecidableEq, Repr

/-- What one run of the per-message handler did. -/
structure HandleResult where
  table : SubTable
  replies : List (Nat × String)
  dispatched : Bool
  socket : Conn
deriving DecidableEq, Repr

/-- Modelled from the spec: the Message Router (§4.4) — decoding failure
yields a single `{"type":"error","message":"Invalid JSON"}` reply to the
sender and nothing else; `subscribe` with a positive integer topic id calls
`subscribe` and replies with a `subscribed` acknowledgment; `unsubscribe`
with a positive integer topic id calls `unsubscribe` with no acknowledgment;
any other shape is silently ignored; if decoding fails, dispatch must not
run. -/
def handleMessage (socket : Conn) (table : SubTable) (decoded : Option InboundMsg) :
    HandleResult :=
  match decoded with
  | none => ⟨table, sendJson socket (Frame.errorMsg "Invalid JSON"), false, socket⟩
  | some m =>
    if m.tag = "subscribe" then
      match m.matchId with
      | some n =>
        if 0 < n then
          ⟨subscribe table n socket.id, sendJson socket (Frame.subscribed n), true, socket⟩
        else ⟨table, [], false, socket⟩
      | none => ⟨table, [], false, socket⟩
    else if m.tag = "unsubscribe" then
      match m.matchId with
      | some n =>
        if 0 < n then ⟨unsubscribe table n socket.id, [], true, socket⟩
        else ⟨table, [], false, socket⟩
      | none => ⟨table, [], false, socket⟩
    else ⟨table, [], false, socket⟩

lemma broadcast_foldl (payload : Frame) (clients : List Conn) (acc : BroadcastTrace) :
    clients.foldl (broadcastStep payload) acc
      = ⟨acc.deliveries
          ++ (clients.filter (fun c => c.readyState = WebSocketOPEN)).map
              (fun c => (c.id, jsonStringify payload)),
         acc.serializations
          + (clients.filter (fun c => c.readyState = WebSocketOPEN)).length⟩ := by
  induction clients generalizing acc with
  | nil => simp
  | cons c cs ih =>
    by_cases h : c.readyState = WebSocketOPEN
    · simp [broadcastStep, h, ih, List.filter_cons]
      omega
    · simp [broadcastStep, h, ih, List.filter_cons]

lemma broadcast_eq (payload : Frame) (clients : List Conn) :
    broadcast clients payload
      = ⟨(clients.filter (fun c => c.readyState = WebSocketOPEN)).map
            (fun c => (c.id, jsonStringify payload)),
         (clients.filter (fun c => c.readyState = WebSocketOPEN)).length⟩ := by
  simpa [broadcast] using broadcast_foldl payload clients ⟨[], 0⟩

lemma heartbeatTick_eq (clients : List Conn) :
    heartbeatTick clients
      = ⟨(clients.filter (fun c => c.isAlive)).map (fun c => { c with isAlive := false }),
         (clients.filter (fun c => !c.isAlive)).map Conn.id,
         (clients.filter (fun c => c.isAlive)).map Conn.id⟩ := by
  induction clients with
  | nil => rfl
  | cons c cs ih =>
    by_cases h : c.isAlive
    · simp [heartbeatTick, h, List.filter_cons] at ih ⊢
      simp [ih]
    · simp [heartbeatTick, h, List.filter_cons] at ih ⊢
      simp [ih, h]

/-- C10: for every upgrade request whose URL cannot be parsed against its
Host header, the upgrade handler writes an HTTP 400 Bad Request response and
destroys the underlying socket, returning before the /ws path check and
before any admission-policy evaluation, so no connection state is created:
whatever the Arcjet configuration and policy outcome, `onUpgrade none _ _`
writes 400, destroys the socket, never invokes the policy and never
upgrades. -/
theorem unparsable_url_rejected_400 (wsArcjetOn : Bool)
    (protect : Except Unit ArcjetDecision) :
    onUpgrade none wsArcjetOn protect
      = ⟨some "HTTP/1.1 400 Bad Request", true, false, false⟩ := rfl

/-- C5: every upgrade request whose target path differs from /ws is rejected
immediately with HTTP 404 Not Found and the socket destroyed, and the
admission policy backend is never invoked (`policyInvoked = false`) —
whatever the policy would have decided. -/
theorem non_ws_path_rejected_without_policy (pathname : String) (wsArcjetOn : Bool)
    (protect : Except Unit ArcjetDecision) (h : pathname ≠ "/ws") :
    onUpgrade (some pathname) wsArcjetOn protect
      = ⟨some "HTTP/1.1 404 Not Found", true, false, false⟩ := by
  simp [onUpgrade, h]

theorem non_ws_path_rejected_without_policy_witness :
    ("/" : String) ≠ "/ws"
    ∧ onUpgrade (some "/") true (Except.ok ⟨true, true⟩)
        = ⟨some "HTTP/1.1 404 Not Found", true, false, false⟩ :=
  ⟨by decide,
   non_ws_path_rejected_without_policy "/" true (Except.ok ⟨true, true⟩) (by decide)⟩

/-- C4: a denial whose reason is rate-limit is rejected with the
rate-limit-specific "too many requests" signal (HTTP 429 in the
upgrade-gate version, close code 1013 in the v1 in-handler version), any
other denial with the "forbidden" signal (HTTP 403 / close code 1008), and
a failure of the policy backend itself with a server-side error status
(HTTP 500 / close code 1011) distinct from both client-denial statuses. -/
theorem admission_denial_status_mapping (d : ArcjetDecision) (e : Unit) (socket : Conn)
    (hd : d.isDenied = true) :
    (d.isRateLimit = true →
      onUpgrade (some "/ws") true (Except.ok d)
        = ⟨some "HTTP/1.1 429 Too Many Requests", true, true, false⟩)
    ∧ (d.isRateLimit = false →
      onUpgrade (some "/ws") true (Except.ok d)
        = ⟨some "HTTP/1.1 403 Forbidden", true, true, false⟩)
    ∧ onUpgrade (some "/ws") true (Except.error e)
        = ⟨some "HTTP/1.1 500 Internal Server Error", true, true, false⟩
    ∧ ("HTTP/1.1 500 Internal Server Error" ≠ "HTTP/1.1 429 Too Many Requests"
        ∧ "HTTP/1.1 500 Internal Server Error" ≠ "HTTP/1.1 403 Forbidden")
    ∧ (d.isRateLimit = true →
        (v1ConnectionHandler true (Except.ok d) socket).closedWith
          = some (1013, "Rate limit exceeded"))
    ∧ (d.isRateLimit = false →
        (v1ConnectionHandler true (Except.ok d) socket).closedWith
          = some (1008, "Access denied"))
    ∧ (v1ConnectionHandler true (Except.error e) socket).closedWith
        = some (1011, "Server security error")
    ∧ ((1011 : Nat) ≠ 1013 ∧ (1011 : Nat) ≠ 1008) := by
  obtain ⟨hd1, rl⟩ := d
  cases hd
  refine ⟨?_, ?_, by rfl, by constructor <;> decide, ?_, ?_, by rfl, by constructor <;> decide⟩
  all_goals intro h
  all_goals cases h
  all_goals simp [onUpgrade, v1ConnectionHandler]

theorem admission_denial_status_mapping_witness :
    ((⟨true, true⟩ : ArcjetDecision).isDenied = true)
    ∧ ((⟨true, true⟩ : ArcjetDecision).isRateLimit = true)
    ∧ onUpgrade (some "/ws") true (Except.ok ⟨true, true⟩)
        = ⟨some "HTTP/1.1 429 Too Many Requests", true, true, false⟩ :=
  ⟨rfl, rfl,
   (admission_denial_status_mapping ⟨true, true⟩ () ⟨0, WebSocketOPEN, true⟩ rfl).1 rfl⟩

/-- C6: on every heartbeat tick (the interval is fixed at 30000 ms = 30
seconds), each connection whose liveness flag is false is terminated and
removed, and each remaining connection has its flag set to false and is sent
a ping; the flag is set true on creation (`connectionHandler`) and on each
pong (`onPong`), so a connection that answers no probe for two consecutive
ticks is terminated, while a connection whose pong arrives between ticks
survives the next tick. -/
theorem heartbeat_two_tick_reaping (ws : Conn) (clients : List Conn) :
    heartbeatIntervalMs = 30000
    ∧ (connectionHandler ws).socket.isAlive = true
    ∧ (onPong ws).isAlive = true
    ∧ (heartbeatTick clients).survivors
        = (clients.filter (fun c => c.isAlive)).map (fun c => { c with isAlive := false })
    ∧ (heartbeatTick clients).terminated
        = (clients.filter (fun c => !c.isAlive)).map Conn.id
    ∧ (heartbeatTick clients).pinged
        = (clients.filter (fun c => c.isAlive)).map Conn.id
    ∧ (heartbeatTick [{ ws with isAlive := true }]).survivors
        = [{ ws with isAlive := false }]
    ∧ (heartbeatTick (heartbeatTick [{ ws with isAlive := true }]).survivors).terminated
        = [ws.id]
    ∧ (heartbeatTick (heartbeatTick [{ ws with isAlive := true }]).survivors).survivors
        = []
    ∧ (heartbeatTick [onPong { ws with isAlive := false }]).survivors
        = [{ ws with isAlive := false }]
    ∧ (heartbeatTick [onPong { ws with isAlive := false }]).terminated = [] := by
  have hchar := heartbeatTick_eq clients
  refine ⟨rfl, rfl, rfl, by rw [hchar], by rw [hchar], by rw [hchar], ?_, ?_, ?_, ?_, ?_⟩
  all_goals simp [heartbeatTick_eq, onPong]

/-- C8, counterexample: `JSON.stringify(payload)` sits inside the client
loop of `broadcast`, so with two open clients the event is serialized twice,
not once — refuting "serializes the event once". -/
theorem broadcast_serializes_per_recipient :
    (broadcast [⟨1, WebSocketOPEN, true⟩, ⟨2, WebSocketOPEN, true⟩] Frame.welcome).serializations
        = 2
    ∧ ¬ (broadcast [⟨1, WebSocketOPEN, true⟩, ⟨2, WebSocketOPEN, true⟩]
          Frame.welcome).serializations = 1 := by
  constructor <;> decide

/-- C8 (amended): `broadcastAll(event)` writes the identically-serialized
frame to exactly the connections in the registry whose state is open, in
registry order; every connection not in the open state is skipped without
error; the event is serialized once per open recipient (not once overall);
and, the registry holding distinct sockets, no connection receives the frame
more than once. -/
theorem broadcastAll_delivers_to_open_connections (clients : List Conn) (payload : Frame)
    (hnodup : (clients.map Conn.id).Nodup) :
    (broadcast clients payload).deliveries
      = (clients.filter (fun c => c.readyState = WebSocketOPEN)).map
          (fun c => (c.id, jsonStringify payload))
    ∧ (broadcast clients payload).serializations
      = (clients.filter (fun c => c.readyState = WebSocketOPEN)).length
    ∧ ∀ i : Nat, ((broadcast clients payload).deliveries.map Prod.fst).count i ≤ 1 := by
  have heq := broadcast_eq payload clients
  refine ⟨by rw [heq], by rw [heq], ?_⟩
  intro i
  have hdel : (broadcast clients payload).deliveries.map Prod.fst
      = (clients.filter (fun c => c.readyState = WebSocketOPEN)).map Conn.id := by
    rw [heq]
    simp
  rw [hdel]
  have hsub : List.Sublist
      ((clients.filter (fun c => c.readyState = WebSocketOPEN)).map Conn.id)
      (clients.map Conn.id) :=
    (List.filter_sublist clients).map Conn.id
  exact List.nodup_iff_count_le_one.mp (hnodup.sublist hsub) i

theorem broadcastAll_delivers_to_open_connections_witness :
    ((([⟨1, WebSocketOPEN, true⟩, ⟨2, WebSocketCLOSED, true⟩] : List Conn).map Conn.id).Nodup)
    ∧ (((broadcast [⟨1, WebSocketOPEN, true⟩, ⟨2, WebSocketCLOSED, true⟩]
          Frame.welcome).deliveries.map Prod.fst).count 1 ≤ 1) :=
  ⟨by decide,
   (broadcastAll_delivers_to_open_connections
      [⟨1, WebSocketOPEN, true⟩, ⟨2, WebSocketCLOSED, true⟩] Frame.welcome (by decide)).2.2 1⟩

/-- C9: on connection establishment (the freshly upgraded socket is open),
the connection handler's outbound writes consist of exactly one frame, the
serialized welcome frame, addressed to that socket's id only — so the
welcome frame is sent exactly once, to that client only, and before any
other outbound frame reaches it. -/
theorem welcome_sent_once_first (socket : Conn)
    (h : socket.readyState = WebSocketOPEN) :
    (connectionHandler socket).sent
        = [(socket.id, "\x7b\"type\":\"welcome\"\x7d")]
    ∧ jsonStringify Frame.welcome = "\x7b\"type\":\"welcome\"\x7d"
    ∧ (connectionHandler socket).sent.length = 1 := by
  refine ⟨?_, rfl, ?_⟩ <;> simp [connectionHandler, sendJson, h, jsonStringify]

theorem welcome_sent_once_first_witness :
    ((⟨5, WebSocketOPEN, false⟩ : Conn).readyState = WebSocketOPEN)
    ∧ (connectionHandler ⟨5, WebSocketOPEN, false⟩).sent
        = [(5, "\x7b\"type\":\"welcome\"\x7d")] :=
  ⟨rfl, (welcome_sent_once_first ⟨5, WebSocketOPEN, false⟩ rfl).1⟩

/-- C3, counterexample: in the v1 iteration the Arcjet check runs inside the
`connection` handler and there is no `return` after `socket.close`, so a
denied request (here: denied with a non-rate-limit reason) still gets a
connection record — the liveness flag is set and the pong/error handlers are
attached — refuting "no connection record is ever created for the denied
request". -/
theorem v1_denied_request_creates_connection_state :
    (v1ConnectionHandler true (Except.ok ⟨true, false⟩)
        ⟨7, WebSocketOPEN, false⟩).closedWith = some (1008, "Access denied")
    ∧ (v1ConnectionHandler true (Except.ok ⟨true, false⟩)
        ⟨7, WebSocketOPEN, false⟩).socket.isAlive = true
    ∧ (v1ConnectionHandler true (Except.ok ⟨true, false⟩)
        ⟨7, WebSocketOPEN, false⟩).pongAttached = true
    ∧ (v1ConnectionHandler true (Except.ok ⟨true, false⟩)
        ⟨7, WebSocketOPEN, false⟩).errorAttached = true := by
  refine ⟨?_, ?_, ?_, ?_⟩ <;> decide

/-- C3 (amended): in the upgrade-gate (v2) version every admission denial —
rate-limited, forbidden, or policy-error — rejects the request before any
connection state exists: the socket is destroyed and `handleUpgrade` is
never called, so no connection record is created; path-based denials (404,
and 400 on unparsable URLs) likewise never upgrade. In the v1 iteration,
where the check runs inside the connection handler, the denied socket is
closed but the liveness flag is still set, the pong/error handlers are
still attached, and only the welcome frame is skipped (the socket is no
longer open). -/
theorem admission_denial_connection_state (d : ArcjetDecision) (e : Unit)
    (socket : Conn) (pathname : String) (hd : d.isDenied = true) :
    ((onUpgrade (some "/ws") true (Except.ok d)).upgraded = false
      ∧ (onUpgrade (some "/ws") true (Except.ok d)).socketDestroyed = true)
    ∧ ((onUpgrade (some "/ws") true (Except.error e)).upgraded = false
      ∧ (onUpgrade (some "/ws") true (Except.error e)).socketDestroyed = true)
    ∧ (pathname ≠ "/ws" →
        (onUpgrade (some pathname) true (Except.ok d)).upgraded = false)
    ∧ (onUpgrade none true (Except.ok d)).upgraded = false
    ∧ ((v1ConnectionHandler true (Except.ok d) socket).closedWith ≠ none
      ∧ (v1ConnectionHandler true (Except.ok d) socket).socket.isAlive = true
      ∧ (v1ConnectionHandler true (Except.ok d) socket).pongAttached = true
      ∧ (v1ConnectionHandler true (Except.ok d) socket).errorAttached = true
      ∧ (v1ConnectionHandler true (Except.ok d) socket).sent = []) := by
  obtain ⟨hd1, rl⟩ := d
  cases hd
  refine ⟨?_, by constructor <;> rfl, ?_, rfl, ?_⟩
  · cases rl <;> exact ⟨rfl, rfl⟩
  · intro h
    simp [onUpgrade, h]
  · cases rl <;>
      simp [v1ConnectionHandler, sendJson, WebSocketCLOSING, WebSocketOPEN]

theorem admission_denial_connection_state_witness :
    ((⟨true, true⟩ : ArcjetDecision).isDenied = true)
    ∧ (onUpgrade (some "/ws") true (Except.ok ⟨true, true⟩)).upgraded = false
    ∧ (v1ConnectionHandler true (Except.ok ⟨true, true⟩)
        ⟨7, WebSocketOPEN, false⟩).sent = [] :=
  ⟨rfl,
   (admission_denial_connection_state ⟨true, true⟩ () ⟨7, WebSocketOPEN, false⟩ "/" rfl).1.1,
   (admission_denial_connection_state ⟨true, true⟩ () ⟨7, WebSocketOPEN, false⟩ "/"
      rfl).2.2.2.2.2.2.2.2⟩

lemma subscribe_cons_ne (e : Int × List Nat) (rest : SubTable) (n : Int) (i : Nat)
    (he : e.1 ≠ n) : subscribe (e :: rest) n i = e :: subscribe rest n i := by
  by_cases hfind : (rest.find? (fun x => x.1 = n)).isSome
  · simp [subscribe, List.find?_cons, he, hfind]
  · simp [subscribe, List.find?_cons, he, hfind]

lemma subscribersOf_cons_ne (e : Int × List Nat) (t : SubTable) (n : Int)
    (he : e.1 ≠ n) : subscribersOf (e :: t) n = subscribersOf t n := by
  simp [subscribersOf, List.find?_cons, he]

lemma mem_subscribersOf_subscribe (table : SubTable) (n : Int) (i : Nat) :
    i ∈ subscribersOf (subscribe table n i) n := by
  induction table with
  | nil => simp [subscribe, subscribersOf]
  | cons e rest ih =>
    by_cases he : e.1 = n
    · simp only [subscribe, List.find?_cons, he]
      by_cases hmem : i ∈ e.2
      · simp [subscribersOf, List.find?_cons, he, hmem]
      · simp [subscribersOf, List.find?_cons, he, hmem]
    · rw [subscribe_cons_ne e rest n i he, subscribersOf_cons_ne e _ n he]
      exact ih

/-- C1: for every commentary event emitted for match id M, the broadcast
engine serializes it once as a `{"type":"commentary","data":<commentary>}`
frame and delivers it to exactly those connections in `subscribersOf(M)`
that are currently open and to no connection outside that set; if the topic
has no subscribers the operation is a silent no-op. (The subscription-aware
version of `ws/server.js` is modelled from the spec — see
`broadcastTopic`/`subscribersOf`.) -/
theorem broadcastCommentary_topic_delivery (clients : List Conn) (table : SubTable)
    (c : Commentary) :
    (subscribersOf table c.matchId = [] →
        broadcastCommentary clients table c = ⟨[], 0⟩)
    ∧ (subscribersOf table c.matchId ≠ [] →
        (broadcastCommentary clients table c).serializations = 1)
    ∧ (∀ d ∈ (broadcastCommentary clients table c).deliveries,
        d.2 = jsonStringify (Frame.commentary c)
        ∧ ∃ cl ∈ clients, cl.id = d.1 ∧ cl.readyState = WebSocketOPEN
            ∧ cl.id ∈ subscribersOf table c.matchId)
    ∧ (∀ cl ∈ clients, cl.id ∈ subscribersOf table c.matchId →
        cl.readyState = WebSocketOPEN →
        (cl.id, jsonStringify (Frame.commentary c))
          ∈ (broadcastCommentary clients table c).deliveries) := by
  by_cases hsubs : subscribersOf table c.matchId = []
  · refine ⟨fun _ => ?_, fun h => absurd hsubs h, ?_, ?_⟩
    · simp [broadcastCommentary, broadcastTopic, hsubs]
    · intro d hd
      simp [broadcastCommentary, broadcastTopic, hsubs] at hd
    · intro cl _ hmem _
      rw [hsubs] at hmem
      simp at hmem
  · refine ⟨fun h => absurd h hsubs, fun _ => ?_, ?_, ?_⟩
    · simp [broadcastCommentary, broadcastTopic, hsubs]
    · intro d hd
      simp only [broadcastCommentary, broadcastTopic, hsubs, if_neg, ite_false,
        List.mem_map, List.mem_filter] at hd
      obtain ⟨cl, ⟨hcl, hprop⟩, hEq⟩ := hd
      rw [decide_eq_true_eq] at hprop
      refine ⟨by rw [← hEq], cl, hcl, by rw [← hEq], hprop.2, hprop.1⟩
    · intro cl hcl hmem hopen
      simp only [broadcastCommentary, broadcastTopic, hsubs, if_neg, ite_false,
        List.mem_map, List.mem_filter]
      exact ⟨cl, ⟨hcl, by rw [decide_eq_true_eq]; exact ⟨hmem, hopen⟩⟩, rfl⟩

theorem broadcastCommentary_topic_delivery_witness :
    (subscribersOf [((42 : Int), [1])] 42 ≠ [])
    ∧ (broadcastCommentary [⟨1, WebSocketOPEN, true⟩] [((42 : Int), [1])]
        ⟨42, "\"minute\":7"⟩).serializations = 1 :=
  ⟨by decide,
   (broadcastCommentary_topic_delivery [⟨1, WebSocketOPEN, true⟩] [((42 : Int), [1])]
      ⟨42, "\"minute\":7"⟩).2.1 (by decide)⟩

/-- C2: for every connected client that sends
`{"type":"subscribe","matchId":N}` with N a positive integer, the router
calls `subscribe(N, connection)` on the subscription table and replies to
that same client with a `{"type":"subscribed","matchId":N}` acknowledgment
carrying the same topic id — after which the sender's id is in
`subscribersOf(N)`. (The message router is modelled from the spec — see
`handleMessage`.) -/
theorem subscribe_command_acked (socket : Conn) (table : SubTable) (n : Int)
    (hopen : socket.readyState = WebSocketOPEN) (hn : 0 < n) :
    handleMessage socket table (some ⟨"subscribe", some n⟩)
      = ⟨subscribe table n socket.id,
         [(socket.id, jsonStringify (Frame.subscribed n))], true, socket⟩
    ∧ socket.id ∈ subscribersOf (subscribe table n socket.id) n := by
  refine ⟨?_, mem_subscribersOf_subscribe table n socket.id⟩
  simp [handleMessage, sendJson, hopen, hn]

theorem subscribe_command_acked_witness :
    ((⟨3, WebSocketOPEN, true⟩ : Conn).readyState = WebSocketOPEN)
    ∧ ((0 : Int) < 42)
    ∧ handleMessage ⟨3, WebSocketOPEN, true⟩ [] (some ⟨"subscribe", some 42⟩)
        = ⟨[((42 : Int), [3])],
           [(3, "\x7b\"type\":\"subscribed\",\"matchId\":42\x7d")], true,
           ⟨3, WebSocketOPEN, true⟩⟩ :=
  ⟨rfl, by decide,
   (subscribe_command_acked ⟨3, WebSocketOPEN, true⟩ [] 42 rfl (by decide)).1⟩

/-- C7: an inbound frame that fails to decode as JSON (modelled as the
router receiving no decoded message; e.g. the literal text `not-json`)
produces exactly one reply frame `{"type":"error","message":"Invalid
JSON"}` to the sender, the connection and the subscription table are
untouched (the connection remains open), and command dispatch never runs.
(The message router is modelled from the spec — see `handleMessage`.) -/
theorem invalid_json_single_error_reply (socket : Conn) (table : SubTable)
    (hopen : socket.readyState = WebSocketOPEN) :
    (handleMessage socket table none).replies
        = [(socket.id, "\x7b\"type\":\"error\",\"message\":\"Invalid JSON\"\x7d")]
    ∧ jsonStringify (Frame.errorMsg "Invalid JSON")
        = "\x7b\"type\":\"error\",\"message\":\"Invalid JSON\"\x7d"
    ∧ (handleMessage socket table none).table = table
    ∧ (handleMessage socket table none).socket = socket
    ∧ (handleMessage socket table none).socket.readyState = WebSocketOPEN
    ∧ (handleMessage socket table none).dispatched = false := by
  refine ⟨?_, rfl, rfl, rfl, hopen, rfl⟩
  simp [handleMessage, sendJson, hopen, jsonStringify]

theorem invalid_json_single_error_reply_witness :
    ((⟨9, WebSocketOPEN, true⟩ : Conn).readyState = WebSocketOPEN)
    ∧ (handleMessage ⟨9, WebSocketOPEN, true⟩ [((1 : Int), [9])] none).replies
        = [(9, "\x7b\"type\":\"error\",\"message\":\"Invalid JSON\"\x7d")]
    ∧ (handleMessage ⟨9, WebSocketOPEN, true⟩ [((1 : Int), [9])] none).dispatched
        = false :=
  ⟨rfl,
   (invalid_json_single_error_reply ⟨9, WebSocketOPEN, true⟩ [((1 : Int), [9])] rfl).1,
   (invalid_json_single_error_reply ⟨9, WebSocketOPEN, true⟩ [((1 : Int), [9])]
      rfl).2.2.2.2.2⟩

end Sportz
